import Mathlib

/-!
Shallow embedding of the transcription pipeline in `whisperx/asr.py`
(dangvansam/whisperY): the confidence filter and hallucination-phrase
penalties of `WhisperModel.generate_segment_batched` and
`FasterWhisperPipeline._forward`, the segment slicing, batching and
transcript assembly of `FasterWhisperPipeline.transcribe`, the scoped
option override for numeral suppression, the VAD-model selection of
`load_model`, and the language-resolution logic.

Numeric fields that are Python floats are embedded as rationals (`ℚ`);
all thresholds and penalties in the source are decimal constants, so
the comparisons the claims exercise are exact in `ℚ`.
-/

set_option maxRecDepth 4000

namespace WhisperY

/-- Substring occurrence on character lists: `needle` occurs as a
contiguous run of `hay`. -/
def containsSub (needle : List Char) : List Char → Bool
  | [] => needle.isPrefixOf []
  | c :: rest => needle.isPrefixOf (c :: rest) || containsSub needle rest

/-- Python substring containment `s in text`: the character sequence of
`s` is an infix of the character sequence of `text` (case-sensitive, no
normalization, exactly as the source tests membership). -/
def strContains (text s : String) : Bool :=
  containsSub s.data text.data

/-- Low-severity hallucination phrase list of
`WhisperModel.generate_segment_batched` (asr.py lines 76-78). -/
def suppress_low_batched : List String :=
  ["Thank you", "Thanks for", "ike and ", "Bye.", "Bye!", "Bye bye!",
   "lease sub", "The end."]

/-- High-severity hallucination phrase list of
`WhisperModel.generate_segment_batched` (asr.py lines 79-83). -/
def suppress_high_batched : List String :=
  ["ubscribe", "my channel", "the channel", "our channel", "ollow me on",
   "for watching", "hank you for watching", "for your viewing", "r viewing",
   "Amara", "next video", "full video", "ranslation by", "ranslated by",
   "ee you next week"]

/-- Low-severity hallucination phrase list of the openai-whisper branch of
`FasterWhisperPipeline._forward` (asr.py lines 293-295). -/
def suppress_low_forward : List String :=
  ["Thanks for", "ike and ", "Bye.", "Bye!", "Bye bye!", "lease sub",
   "The end."]

/-- High-severity hallucination phrase list of the openai-whisper branch of
`FasterWhisperPipeline._forward` (asr.py lines 296-299). -/
def suppress_high_forward : List String :=
  ["ubscribe", "my channel", "the channel", "our channel", "ollow me on",
   "for watching", "hank you for watching", "Hãy subscribe", "Ghiền Mì Gõ",
   "không bỏ lỡ những video hấp dẫn", "kênh La La School"]

/-- One pass of the phrase-penalty loop: for each listed substring that
occurs in `text`, subtract the fixed penalty `p` once (a membership test,
not an occurrence count), exactly as the loops
`for s in list: if s in text: avg_logprob -= p` in the source. -/
def penaltyFold (p : ℚ) (text : String) (L : List String) (lp : ℚ) : ℚ :=
  L.foldl (fun a s => if strContains text s then a - p else a) lp

/-- The penalized log-probability after both phrase loops (asr.py lines
90-95 and 321-326), parameterized by the low/high lists of the call site. -/
def penalizedLogprob (low high : List String) (text : String) (lp : ℚ) : ℚ :=
  penaltyFold (35/100) text high (penaltyFold (15/100) text low lp)

/-- Reject test of `generate_segment_batched` (asr.py line 97), applied to
the penalized log-probability: `avg_logprob < -1.0 or no_speech_prob > 0.7`. -/
def batchedRejects (text : String) (avg_logprob no_speech_prob : ℚ) : Bool :=
  decide (penalizedLogprob suppress_low_batched suppress_high_batched text avg_logprob < -1)
  || decide (no_speech_prob > 7/10)

/-- One candidate sub-segment returned by `model.transcribe` in the
openai-whisper branch of `_forward`: the fields the filter reads. -/
structure WhisperSegment where
  text : String
  avg_logprob : ℚ
  no_speech_prob : ℚ
  compression_ratio : ℚ
  deriving DecidableEq, Repr, Inhabited

/-- Python `str.strip()` with no argument: remove leading and trailing
whitespace characters (the claims only exercise ASCII whitespace). -/
def pyStrip (s : String) : String :=
  String.mk (((s.data.dropWhile Char.isWhitespace).reverse.dropWhile
    Char.isWhitespace).reverse)

/-- Reject test of the openai-whisper branch of `_forward` (asr.py lines
328-331), applied after the in-place phrase penalties:
`(avg < -0.5 and cr < 1) or (avg < -0.5 and cr > 2) or no_speech > 0.7 or
text.strip() == ""`. -/
def forwardRejects (r : WhisperSegment) : Bool :=
  let lp := penalizedLogprob suppress_low_forward suppress_high_forward r.text r.avg_logprob
  (decide (lp < -(1/2)) && decide (r.compression_ratio < 1))
  || (decide (lp < -(1/2)) && decide (r.compression_ratio > 2))
  || decide (r.no_speech_prob > 7/10)
  || decide (pyStrip r.text = "")

/-- The accepted-text list the `_forward` whisper branch accumulates for
one input (asr.py lines 319-339): rejected sub-candidates are skipped via
`continue`, accepted candidate text is appended. -/
def forwardOutputs (segs : List WhisperSegment) : List String :=
  segs.foldl (fun out r => if forwardRejects r then out else out ++ [r.text]) []

/-- Whitespace-run splitter on a character list: the words of Python
`s.split()` with no argument, dropping empty pieces. `cur` accumulates the
current word reversed. -/
def splitWsAux (cur : List Char) : List Char → List (List Char)
  | [] => if cur.isEmpty then [] else [cur.reverse]
  | c :: rest =>
      if c.isWhitespace then
        (if cur.isEmpty then splitWsAux [] rest
         else cur.reverse :: splitWsAux [] rest)
      else splitWsAux (c :: cur) rest

/-- Python joining `s.split()` with single spaces: split on whitespace
runs, drop empties, re-join with single spaces (asr.py line 341). -/
def pySplitJoin (s : String) : String :=
  String.intercalate " " ((splitWsAux [] s.data).map (fun cs => String.mk cs))

/-- The final text the `_forward` whisper branch produces for one input
(asr.py lines 340-341): join accepted sub-candidate texts with spaces and
collapse repeated whitespace. -/
def forward_one (segs : List WhisperSegment) : String :=
  pySplitJoin (String.intercalate " " (forwardOutputs segs))

/-- One result of `self.model.generate` consumed by
`generate_segment_batched`: the decoded text of the first sequence, its
score, its token count, and the no-speech probability. -/
structure GenResult where
  text : String
  score : ℚ
  seq_len : ℕ
  no_speech_prob : ℚ
  deriving DecidableEq, Repr, Inhabited

/-- Length-normalized log-probability of asr.py lines 86-87:
`cum_logprob = score * seq_len ** length_penalty;
avg_logprob = cum_logprob / (seq_len + 1)`. The source exponent is a
Python float; the embedding takes it as an integer, which covers the
default `length_penalty = 1` (the only value `load_model` constructs). -/
def avgLogprob (length_penalty : ℤ) (r : GenResult) : ℚ :=
  r.score * (r.seq_len : ℚ) ^ length_penalty / ((r.seq_len : ℚ) + 1)

/-- The filtering loop of `generate_segment_batched` (asr.py lines 84-109,
158): compute the normalized log-probability, apply the phrase penalties,
skip the candidate via `continue` when line 97 rejects, otherwise append;
finally project the accepted dictionaries to their text. -/
def generate_segment_batched (length_penalty : ℤ) (results : List GenResult) :
    List String :=
  results.foldl
    (fun output r =>
      if batchedRejects r.text (avgLogprob length_penalty r) r.no_speech_prob then
        output
      else
        output ++ [r.text])
    []

/-- One VAD segment: start and end times in seconds. The source reads the
`start` and `end` keys of a merged-chunk dictionary; `end` is a Lean
keyword, so the field is named `stop`. -/
structure AudioSegment where
  start : ℚ
  stop : ℚ
  deriving DecidableEq, Repr, Inhabited

/-- Modelled from the spec: `SAMPLE_RATE` comes from `whisperx/audio.py`,
which is not among the sources; the spec fixes a 16 kHz sample rate. -/
def SAMPLE_RATE : ℚ := 16000

/-- Python `int()` applied to a float: truncation toward zero. -/
def intTrunc (q : ℚ) : ℤ :=
  if 0 ≤ q then ⌊q⌋ else -⌊-q⌋

/-- First sample index of a segment slice: `int(seg['start'] * SAMPLE_RATE)`
(asr.py line 384). Segment times are nonnegative, so the truncation is a
floor and the index a natural number. -/
def frameStart (seg : AudioSegment) : ℕ :=
  (intTrunc (seg.start * SAMPLE_RATE)).toNat

/-- One-past-last sample index of a segment slice:
`int(seg['end'] * SAMPLE_RATE)` (asr.py line 385). -/
def frameStop (seg : AudioSegment) : ℕ :=
  (intTrunc (seg.stop * SAMPLE_RATE)).toNat

/-- Python list slicing `l[a:b]` for nonnegative bounds: indices past the
end of the list clip to the list length instead of failing. -/
def pySlice {α : Type} (l : List α) (a b : ℕ) : List α :=
  (l.take b).drop a

/-- The generator `data(audio, segments)` of `transcribe` (asr.py lines
382-386): one raw sample slice per VAD segment, in segment order. -/
def dataSlices (audio : List ℚ) (segments : List AudioSegment) : List (List ℚ) :=
  segments.map (fun seg => pySlice audio (frameStart seg) (frameStop seg))

/-- Start index as the spec words it: `round(start_i * sample_rate)`, for
comparison with `frameStart` from the source. -/
def specFrameStart (seg : AudioSegment) : ℕ :=
  (round (seg.start * SAMPLE_RATE)).toNat

/-- End index as the spec words it: `round(end_i * sample_rate)`, for
comparison with `frameStop` from the source. -/
def specFrameStop (seg : AudioSegment) : ℕ :=
  (round (seg.stop * SAMPLE_RATE)).toNat

/-- Segment slices as the spec words them, slice i spanning
`[round(start_i * sample_rate), round(end_i * sample_rate))`. -/
def specSlices (audio : List ℚ) (segments : List AudioSegment) : List (List ℚ) :=
  segments.map (fun seg => pySlice audio (specFrameStart seg) (specFrameStop seg))

/-- Grouping of the input stream into loader batches of `max b 1` items,
the last batch possibly short, matching the `DataLoader` dispatch of
`get_iterator` (asr.py line 371). -/
def chunks {α : Type} (b : ℕ) : List α → List (List α)
  | [] => []
  | x :: xs =>
      (x :: xs).take (max b 1) :: chunks b ((x :: xs).drop (max b 1))
termination_by l => l.length
decreasing_by
  simp only [List.length_drop, List.length_cons]
  omega

/-- Effective loader batch size: `transcribe` falls back from a falsy
`batch_size` (0 via `batch_size or self._batch_size`, or None) to the
per-sample default the wrapped pipeline uses, i.e. 1. -/
def effBatch : Option ℕ → ℕ
  | none => 1
  | some 0 => 1
  | some (k + 1) => k + 1

/-- Stream of per-input texts the pipeline call produces in the
openai-whisper branch: inputs are grouped into loader batches, `_forward`
maps each batched input through the external `model.transcribe` capability
`f` and the filter-join of lines 319-342, and the iterator streams the
per-item strings back in order (for batch sizes 0, 1 and None the
`text[0]` unwrap of asr.py line 437 extracts the same single string). -/
def pipelineOutputsW {α : Type} (b : Option ℕ) (f : α → List WhisperSegment)
    (inputs : List α) : List String :=
  ((chunks (effBatch b) inputs).map
    (fun batch => batch.map (fun x => forward_one (f x)))).flatten

/-- Stream of texts the pipeline call produces in the faster-whisper
branch: each loader batch goes through `generate_segment_batched`, whose
rejected candidates are dropped from the returned list, and the iterator
streams however many strings each batch produced. `g` is the external
`model.generate` capability giving one scored result per batch item. -/
def pipelineTextsFW (b : Option ℕ) (length_penalty : ℤ)
    (g : List ℚ → GenResult) (inputs : List (List ℚ)) : List String :=
  ((chunks (effBatch b) inputs).map
    (fun batch => generate_segment_batched length_penalty (batch.map g))).flatten

/-- Python `round(x, 3)` on segment times (asr.py lines 440-441); tie
behavior at half-thousandths is not exercised by any claim. -/
def round3 (q : ℚ) : ℚ :=
  (round (q * 1000) : ℚ) / 1000

/-- One output segment of `transcribe` (asr.py lines 438-442). -/
structure SingleSegment where
  text : String
  start : ℚ
  stop : ℚ
  deriving DecidableEq, Repr, Inhabited

/-- The assembly loop of `transcribe` (asr.py lines 430-443): enumerate
the pipeline output stream and pair text number `idx` with the rounded
times of `vad_segments[idx]`. -/
def assembleSegments (vad : List AudioSegment) (texts : List String) :
    List SingleSegment :=
  texts.enum.map (fun p =>
    { text := p.2,
      start := round3 ((vad.getD p.1 default).start),
      stop := round3 ((vad.getD p.1 default).stop) })

/-- End-to-end `transcribe` segment list for the openai-whisper model
branch (the branch `load_model` constructs): slice the waveform by the
VAD segments, stream the sliced inputs through the pipeline, assemble. -/
def transcribeW (b : Option ℕ) (audio : List ℚ) (vad : List AudioSegment)
    (f : List ℚ → List WhisperSegment) : List SingleSegment :=
  assembleSegments vad (pipelineOutputsW b f (dataSlices audio vad))

/-- End-to-end `transcribe` segment list for the faster-whisper model
branch. -/
def transcribeFW (b : Option ℕ) (length_penalty : ℤ) (audio : List ℚ)
    (vad : List AudioSegment) (g : List ℚ → GenResult) : List SingleSegment :=
  assembleSegments vad (pipelineTextsFW b length_penalty g (dataSlices audio vad))

/-- The fields of the `TranscriptionOptions` record that `transcribe`
reads or writes, plus representative decode fields for frame conditions. -/
structure PipelineOptions where
  beam_size : ℕ
  patience : ℚ
  length_penalty : ℤ
  suppress_blank : Bool
  suppress_tokens : List ℤ
  without_timestamps : Bool
  deriving DecidableEq, Repr

/-- The options record while the `transcribe` body runs (asr.py lines
419-425): with `suppress_numerals` set, `suppress_tokens` is replaced by
`list(set(numeral_symbol_tokens + self.options.suppress_tokens))`; the
Python set has no fixed order, embedded as deduplication of the
concatenation. -/
def optionsDuring (sn : Bool) (numeral_symbol_tokens : List ℤ)
    (opts : PipelineOptions) : PipelineOptions :=
  if sn then
    { opts with
      suppress_tokens := (numeral_symbol_tokens ++ opts.suppress_tokens).dedup }
  else opts

/-- The options record after the caller stops driving the `transcribe`
generator. The restore at asr.py lines 451-452 sits after the yield loop
with no try/finally, so it runs exactly when the generator was driven to
completion; an interrupted call stops at a yield and never reaches it. -/
def optionsAfter (sn : Bool) (numeral_symbol_tokens : List ℤ)
    (opts : PipelineOptions) (completed : Bool) : PipelineOptions :=
  let d := optionsDuring sn numeral_symbol_tokens opts
  if completed then
    (if sn then { d with suppress_tokens := opts.suppress_tokens } else d)
  else d

/-- The VAD backends `load_model` can select. -/
inductive VadBackend
  | silero
  | pyannote
  | custom
  deriving DecidableEq, Repr

/-- The VAD selection of `load_model` (asr.py lines 569-579): a manually
assigned model wins; otherwise the method name picks Silero or Pyannote,
and anything else raises `ValueError` at construction. -/
def chooseVadModel (vad_model : Option VadBackend) (vad_method : Option String) :
    Except String VadBackend :=
  match vad_model with
  | some m => Except.ok m
  | none =>
      if vad_method = some "silero" then Except.ok VadBackend.silero
      else if vad_method = some "pyannote" then Except.ok VadBackend.pyannote
      else Except.error "Invalid vad_method"

/-- The three model variants the pipeline switches on. -/
inductive ModelKind
  | openaiWhisper
  | fasterWhisper
  | huggingface
  deriving DecidableEq, Repr

/-- The tokenizer fields the language logic of `transcribe` reads. -/
structure TokenizerState where
  language_code : String
  task : String
  deriving DecidableEq, Repr

/-- Python truthiness of an optional string: None and the empty string
are falsy. -/
def truthy : Option String → Bool
  | none => false
  | some s => !(s == "")

/-- Python `a or b` for an optional string `a` and fallback `b`. -/
def pyOrStr (a : Option String) (b : String) : String :=
  match a with
  | none => b
  | some s => if s == "" then b else s

/-- Outcome of the language-resolution block of `transcribe`: the final
`language` variable (returned in the result record), whether
`detect_language` was invoked, and the tokenizer cached afterwards. -/
structure LangOutcome where
  language : Option String
  detect_called : Bool
  tokenizer : Option TokenizerState
  deriving DecidableEq, Repr

/-- The language-resolution block of `transcribe` (asr.py lines 404-417):
only a faster-whisper model enters it; with no cached tokenizer,
`language = language or self.detect_language(audio)` (so detection runs
exactly when `language` is falsy) and a tokenizer is built; with a cached
tokenizer, falsy values fall back to its fields and it is rebuilt only on
mismatch. `detected` stands for the external detection result. -/
def resolveLanguage (mk : ModelKind) (tok : Option TokenizerState)
    (language : Option String) (task : Option String) (detected : String) :
    LangOutcome :=
  match mk with
  | ModelKind.fasterWhisper =>
      match tok with
      | none =>
          let lang := pyOrStr language detected
          let tsk := pyOrStr task "transcribe"
          { language := some lang,
            detect_called := !(truthy language),
            tokenizer := some { language_code := lang, task := tsk } }
      | some t =>
          let lang := pyOrStr language t.language_code
          let tsk := pyOrStr task t.task
          { language := some lang,
            detect_called := false,
            tokenizer :=
              some (if tsk ≠ t.task ∨ lang ≠ t.language_code then
                      { language_code := lang, task := tsk }
                    else t) }
  | _ => { language := language, detect_called := false, tokenizer := tok }

/-- The accept/reject disjunction as the spec words it (section 4.3 step
3), over the penalized log-probability, for comparison with the filters
embedded from the source. -/
def specFilterRejects (text : String) (avg no_speech : ℚ) (cr : Option ℚ) :
    Bool :=
  decide (avg < -1)
  || decide (no_speech > 7/10)
  || (match cr with
      | some c => decide (avg < -(1/2)) && (decide (c < 1) || decide (c > 2))
      | none => false)
  || decide (pyStrip text = "")

/-! General lemmas about the embedded operations. -/

/-- The penalty loop subtracts the penalty once per listed substring that
occurs in the text, independent of how often a substring occurs. -/
theorem penaltyFold_eq (p : ℚ) (text : String) (L : List String) (lp : ℚ) :
    penaltyFold p text L lp
      = lp - p * ((L.filter (fun s => strContains text s)).length : ℚ) := by
  induction L generalizing lp with
  | nil => simp [penaltyFold]
  | cons x xs ih =>
      have hstep : penaltyFold p text (x :: xs) lp
          = penaltyFold p text xs (if strContains text x then lp - p else lp) := rfl
      rw [hstep]
      by_cases hx : strContains text x = true
      · rw [if_pos hx, ih, List.filter_cons, if_pos hx]
        push_cast [List.length_cons]
        ring
      · rw [if_neg hx, ih, List.filter_cons, if_neg hx]

/-- Closed form of the two penalty passes: 0.15 per matching low-severity
phrase plus 0.35 per matching high-severity phrase, each counted once. -/
theorem penalizedLogprob_eq (low high : List String) (text : String) (lp : ℚ) :
    penalizedLogprob low high text lp
      = lp - 15/100 * ((low.filter (fun s => strContains text s)).length : ℚ)
           - 35/100 * ((high.filter (fun s => strContains text s)).length : ℚ) := by
  rw [penalizedLogprob, penaltyFold_eq, penaltyFold_eq]

/-- Phrase penalties never raise the score. -/
theorem penalizedLogprob_le (low high : List String) (text : String) (lp : ℚ) :
    penalizedLogprob low high text lp ≤ lp := by
  rw [penalizedLogprob_eq]
  have h1 : 0 ≤ (15:ℚ)/100 * ((low.filter (fun s => strContains text s)).length : ℚ) := by
    positivity
  have h2 : 0 ≤ (35:ℚ)/100 * ((high.filter (fun s => strContains text s)).length : ℚ) := by
    positivity
  linarith

/-- The skip-or-append loops of both filter call sites, with an explicit
accumulator peeled off. -/
theorem foldl_skip_acc {β : Type} (rej : β → Bool) (proj : β → String)
    (acc : List String) (l : List β) :
    l.foldl (fun out r => if rej r then out else out ++ [proj r]) acc
      = acc ++ l.foldl (fun out r => if rej r then out else out ++ [proj r]) [] := by
  induction l generalizing acc with
  | nil => simp
  | cons x xs ih =>
      by_cases hx : rej x = true
      · simp only [List.foldl_cons, if_pos hx]
        exact ih acc
      · simp only [List.foldl_cons, if_neg hx]
        rw [ih (acc ++ [proj x]), ih ([] ++ [proj x])]
        simp

/-- The skip-or-append loop keeps exactly the non-rejected items' text, in
order. -/
theorem foldl_skip_eq_filter {β : Type} (rej : β → Bool) (proj : β → String)
    (l : List β) :
    l.foldl (fun out r => if rej r then out else out ++ [proj r]) []
      = (l.filter (fun r => !rej r)).map proj := by
  induction l with
  | nil => rfl
  | cons x xs ih =>
      by_cases hx : rej x
      · simp only [List.foldl_cons, hx, if_true, List.filter_cons,
          Bool.not_true, Bool.false_eq_true, if_false]
        exact ih
      · simp only [List.foldl_cons, hx, if_false, List.filter_cons,
          Bool.not_false, if_true]
        rw [foldl_skip_acc, ih]
        simp

/-- `generate_segment_batched` distributes over list append: the filter is
applied candidate by candidate. -/
theorem generate_segment_batched_append (lp : ℤ) (xs ys : List GenResult) :
    generate_segment_batched lp (xs ++ ys)
      = generate_segment_batched lp xs ++ generate_segment_batched lp ys := by
  unfold generate_segment_batched
  rw [List.foldl_append, foldl_skip_acc]

/-- Joining the per-batch results of any append-homomorphism applied to
loader batches recovers the homomorphism of the whole input list: batching
never changes the concatenated output stream. -/
theorem chunks_flatten_hom {α β : Type} (b : ℕ) (F : List α → List β)
    (h0 : F [] = []) (happ : ∀ xs ys, F (xs ++ ys) = F xs ++ F ys) :
    ∀ l : List α, ((chunks b l).map F).flatten = F l
  | [] => by simp [chunks, h0]
  | x :: xs => by
      have ih := chunks_flatten_hom b F h0 happ ((x :: xs).drop (max b 1))
      simp only [chunks, List.map_cons, List.flatten_cons]
      rw [ih, ← happ, List.take_append_drop]
termination_by l => l.length
decreasing_by
  simp only [List.length_drop, List.length_cons]
  omega

/-- The openai-whisper pipeline stream is the per-input map, independent
of the loader batch size. -/
theorem pipelineOutputsW_eq {α : Type} (b : Option ℕ)
    (f : α → List WhisperSegment) (inputs : List α) :
    pipelineOutputsW b f inputs = inputs.map (fun x => forward_one (f x)) := by
  unfold pipelineOutputsW
  exact chunks_flatten_hom (effBatch b) _ rfl (fun xs ys => List.map_append _ xs ys) inputs

/-- The faster-whisper pipeline stream is the filter applied to the whole
result list, independent of the loader batch size. -/
theorem pipelineTextsFW_eq (b : Option ℕ) (lp : ℤ) (g : List ℚ → GenResult)
    (inputs : List (List ℚ)) :
    pipelineTextsFW b lp g inputs
      = generate_segment_batched lp (inputs.map g) := by
  unfold pipelineTextsFW
  refine chunks_flatten_hom (effBatch b)
    (fun batch => generate_segment_batched lp (batch.map g)) rfl ?_ inputs
  intro xs ys
  show generate_segment_batched lp ((xs ++ ys).map g)
      = generate_segment_batched lp (xs.map g) ++ generate_segment_batched lp (ys.map g)
  rw [List.map_append, generate_segment_batched_append]

/-- The assembly loop emits one output segment per streamed text. -/
theorem assembleSegments_length (vad : List AudioSegment) (texts : List String) :
    (assembleSegments vad texts).length = texts.length := by
  simp [assembleSegments]

/-- Output segment `i` of the assembly loop pairs text `i` with the
rounded times of VAD segment `i`. -/
theorem assembleSegments_get (vad : List AudioSegment) (texts : List String)
    (i : ℕ) (h : i < texts.length) :
    (assembleSegments vad texts).getD i default
      = { text := texts.getD i default,
          start := round3 ((vad.getD i default).start),
          stop := round3 ((vad.getD i default).stop) } := by
  have hl : i < (assembleSegments vad texts).length := by
    rw [assembleSegments_length]; exact h
  have he : i < texts.enum.length := by simp [h]
  rw [List.getD_eq_getElem _ _ hl, List.getD_eq_getElem _ _ h]
  simp [assembleSegments, List.getElem_enum]

/-! Claim theorems. -/

/-- C9: when no vad_model instance is supplied, `load_model` raises its
construction-time ValueError exactly when the vad_method name is neither
"silero" nor "pyannote"; a recognized method name selects a VAD backend
without error. -/
theorem c9_vad_method_validation (vad_method : Option String) :
    (∃ m, chooseVadModel none vad_method = Except.ok m)
      ↔ (vad_method = some "silero" ∨ vad_method = some "pyannote") := by
  constructor
  · rintro ⟨m, hm⟩
    by_cases h1 : vad_method = some "silero"
    · exact Or.inl h1
    by_cases h2 : vad_method = some "pyannote"
    · exact Or.inr h2
    · rw [chooseVadModel, if_neg h1, if_neg h2] at hm
      exact absurd hm (by simp)
  · rintro (h | h) <;> subst h
    · exact ⟨VadBackend.silero, rfl⟩
    · exact ⟨VadBackend.pyannote, by simp [chooseVadModel]⟩

/-- C10: the `transcribe` language parameter defaults to "vi"; with the
default (or any truthy language) the language-detection sub-call is never
made and the returned language equals the passed value; detection runs
exactly when the language is falsy, the model is a faster-whisper
`WhisperModel`, and no tokenizer is cached. -/
theorem c10_language_default_and_detection (mk : ModelKind)
    (tok : Option TokenizerState) (task : Option String) (detected : String)
    (language : Option String) :
    ((resolveLanguage mk tok (some "vi") task detected).detect_called = false
      ∧ (resolveLanguage mk tok (some "vi") task detected).language = some "vi")
    ∧ (truthy language = true →
        (resolveLanguage mk tok language task detected).detect_called = false
        ∧ (resolveLanguage mk tok language task detected).language = language)
    ∧ ((resolveLanguage mk tok language task detected).detect_called = true
        ↔ (truthy language = false ∧ mk = ModelKind.fasterWhisper ∧ tok = none)) := by
  refine ⟨?_, ?_, ?_⟩
  · cases mk <;> cases tok <;> simp [resolveLanguage, truthy, pyOrStr]
  · intro ht
    cases language with
    | none => simp [truthy] at ht
    | some s =>
        have hs : (s == "") = false := by
          cases h : s == ""
          · rfl
          · rw [truthy, h] at ht
            simp at ht
        cases mk <;> cases tok <;> simp [resolveLanguage, pyOrStr, hs, ht]
  · cases mk <;> cases tok <;> simp [resolveLanguage, truthy]

/-- Witness for C10 at the default call: a faster-whisper model with no
cached tokenizer and the default language "vi" makes no detection call and
returns "vi". -/
theorem c10_language_default_and_detection_witness :
    (resolveLanguage ModelKind.fasterWhisper none (some "vi")
        (some "transcribe") "en").detect_called = false
    ∧ (resolveLanguage ModelKind.fasterWhisper none (some "vi")
        (some "transcribe") "en").language = some "vi" :=
  (c10_language_default_and_detection ModelKind.fasterWhisper none
    (some "transcribe") "en" (some "vi")).2.1 (by decide)

/-- C3: batch size does not change transcript content: the whisper-branch
`transcribe` output is identical for any two batch sizes (0, 1, None or
larger), and the faster-whisper text stream equals the whole-list filter
for every batch size, so acceptance decisions and per-segment text never
depend on batching. -/
theorem c3_batch_size_invariance (b1 b2 : Option ℕ) (audio : List ℚ)
    (vad : List AudioSegment) (f : List ℚ → List WhisperSegment)
    (lp : ℤ) (g : List ℚ → GenResult) :
    transcribeW b1 audio vad f = transcribeW b2 audio vad f
    ∧ pipelineTextsFW b1 lp g (dataSlices audio vad)
        = pipelineTextsFW b2 lp g (dataSlices audio vad) := by
  constructor
  · unfold transcribeW
    rw [pipelineOutputsW_eq, pipelineOutputsW_eq]
  · rw [pipelineTextsFW_eq, pipelineTextsFW_eq]

/-- Counterexample for C4: the two filtering call sites do not use the
same phrase lists: "Thank you" is penalized 0.15 by
`generate_segment_batched` but not by `_forward`, whose lists omit it. -/
theorem c4_phrase_lists_differ_counterexample :
    penalizedLogprob suppress_low_batched suppress_high_batched "Thank you." 0
      = -(15/100)
    ∧ penalizedLogprob suppress_low_forward suppress_high_forward "Thank you." 0
      = 0
    ∧ "Thank you" ∈ suppress_low_batched
    ∧ "Thank you" ∉ suppress_low_forward := by
  refine ⟨?_, ?_, by decide, by decide⟩
  · rw [penalizedLogprob_eq,
      show (suppress_low_batched.filter
        (fun s => strContains "Thank you." s)).length = 1 from by decide,
      show (suppress_high_batched.filter
        (fun s => strContains "Thank you." s)).length = 0 from by decide]
    norm_num
  · rw [penalizedLogprob_eq,
      show (suppress_low_forward.filter
        (fun s => strContains "Thank you." s)).length = 0 from by decide,
      show (suppress_high_forward.filter
        (fun s => strContains "Thank you." s)).length = 0 from by decide]
    norm_num

/-- C4 (amended): each call site subtracts 0.15 once per low-severity and
0.35 once per high-severity listed substring occurring in the text
(case-sensitive, once per listed substring regardless of occurrence
count), but the two call sites use different phrase lists. -/
theorem c4_penalty_once_per_phrase (low high : List String) (text : String)
    (lp : ℚ) :
    penalizedLogprob low high text lp
      = lp - 15/100 * ((low.filter (fun s => strContains text s)).length : ℚ)
           - 35/100 * ((high.filter (fun s => strContains text s)).length : ℚ)
    ∧ suppress_low_batched ≠ suppress_low_forward
    ∧ suppress_high_batched ≠ suppress_high_forward :=
  ⟨penalizedLogprob_eq low high text lp, by decide, by decide⟩

/-- Counterexample for C5: the openai-whisper branch filter accepts a
candidate with avg_logprob -1.5 and no_speech_prob 0.1 (its test has no
-1.0 log-probability clause), so "rejected in every model branch" fails. -/
theorem c5_forward_branch_accepts_counterexample :
    forwardRejects ⟨"hello", -3/2, 1/10, 3/2⟩ = false
    ∧ forward_one [⟨"hello", -3/2, 1/10, 3/2⟩] = "hello" := by
  have h : forwardRejects ⟨"hello", -3/2, 1/10, 3/2⟩ = false := by
    norm_num [forwardRejects, penalizedLogprob, penaltyFold,
      suppress_low_forward, suppress_high_forward, strContains, containsSub,
      List.isPrefixOf]
    decide
  refine ⟨h, ?_⟩
  simp only [forward_one, forwardOutputs, List.foldl_cons, List.foldl_nil, h,
    Bool.false_eq_true, if_false, List.nil_append]
  decide

/-- C5 (amended): a candidate whose normalized log-probability is -1.5
with no_speech_prob 0.1 is always rejected by the faster-whisper batched
filter, whatever its text, because the phrase penalties only lower the
score below the -1.0 threshold. -/
theorem c5_batched_rejects_low_logprob (lp : ℤ) (g : GenResult)
    (h1 : avgLogprob lp g = -3/2) (h2 : g.no_speech_prob = 1/10) :
    generate_segment_batched lp [g] = [] := by
  have hrej : batchedRejects g.text (avgLogprob lp g) g.no_speech_prob = true := by
    rw [h1, h2]
    have hle := penalizedLogprob_le suppress_low_batched suppress_high_batched
      g.text (-3/2)
    simp only [batchedRejects, Bool.or_eq_true, decide_eq_true_eq]
    left
    linarith
  simp only [generate_segment_batched, List.foldl_cons, List.foldl_nil, hrej,
    if_true]

/-- Witness for C5 (amended): a one-token candidate with score -3
normalizes to -1.5 and is dropped. -/
theorem c5_batched_rejects_low_logprob_witness :
    generate_segment_batched 1
      [{ text := "hello", score := -3, seq_len := 1, no_speech_prob := 1/10 }] = [] :=
  c5_batched_rejects_low_logprob 1 _ (by norm_num [avgLogprob]) rfl

/-- Counterexample for C6: the `_forward` phrase lists omit "Thank you"
and its filter has no -1.0 clause, so the openai-whisper branch keeps a
"Thank you." candidate with avg_logprob -0.9 instead of rejecting it. -/
theorem c6_forward_branch_keeps_thank_you_counterexample :
    forwardRejects ⟨"Thank you.", -9/10, 1/10, 3/2⟩ = false
    ∧ forward_one [⟨"Thank you.", -9/10, 1/10, 3/2⟩] = "Thank you." := by
  have h : forwardRejects ⟨"Thank you.", -9/10, 1/10, 3/2⟩ = false := by
    norm_num [forwardRejects, penalizedLogprob, penaltyFold,
      suppress_low_forward, suppress_high_forward, strContains, containsSub,
      List.isPrefixOf]
    decide
  refine ⟨h, ?_⟩
  simp only [forward_one, forwardOutputs, List.foldl_cons, List.foldl_nil, h,
    Bool.false_eq_true, if_false, List.nil_append]
  decide

/-- C6 (amended): in the batched branch, any candidate whose text contains
"Thank you" and no other listed phrase with score -0.9 is penalized to
-1.05 and rejected for every no_speech value; the openai-whisper branch
lists do not contain "Thank you". -/
theorem c6_thank_you_penalty_rejects_batched (text : String) (ns : ℚ)
    (h1 : strContains text "Thank you" = true)
    (h2 : ∀ s ∈ suppress_low_batched, s ≠ "Thank you" → strContains text s = false)
    (h3 : ∀ s ∈ suppress_high_batched, strContains text s = false) :
    penalizedLogprob suppress_low_batched suppress_high_batched text (-9/10) = -21/20
    ∧ batchedRejects text (-9/10) ns = true := by
  have ha : strContains text "Thanks for" = false := h2 _ (by decide) (by decide)
  have hb : strContains text "ike and " = false := h2 _ (by decide) (by decide)
  have hc : strContains text "Bye." = false := h2 _ (by decide) (by decide)
  have hd : strContains text "Bye!" = false := h2 _ (by decide) (by decide)
  have he : strContains text "Bye bye!" = false := h2 _ (by decide) (by decide)
  have hf : strContains text "lease sub" = false := h2 _ (by decide) (by decide)
  have hg : strContains text "The end." = false := h2 _ (by decide) (by decide)
  have hfl : suppress_low_batched.filter (fun s => strContains text s)
      = ["Thank you"] := by
    simp [suppress_low_batched, List.filter_cons, h1, ha, hb, hc, hd, he, hf, hg]
  have hfh : suppress_high_batched.filter (fun s => strContains text s) = [] := by
    rw [List.filter_eq_nil_iff]
    intro s hs
    simp [h3 s hs]
  have hpen : penalizedLogprob suppress_low_batched suppress_high_batched text
      (-9/10) = -21/20 := by
    rw [penalizedLogprob_eq, hfl, hfh]
    norm_num
  refine ⟨hpen, ?_⟩
  simp only [batchedRejects, hpen, Bool.or_eq_true, decide_eq_true_eq]
  left
  norm_num

/-- Witness for C6 (amended): the literal text "Thank you." is penalized
from -0.9 to -1.05 and rejected. -/
theorem c6_thank_you_penalty_rejects_batched_witness :
    penalizedLogprob suppress_low_batched suppress_high_batched "Thank you."
      (-9/10) = -21/20
    ∧ batchedRejects "Thank you." (-9/10) (1/10) = true :=
  c6_thank_you_penalty_rejects_batched "Thank you." (1/10) (by decide)
    (by decide) (by decide)

/-- Counterexample for C1: the spec disjunction and the code filters
disagree in both branches: the openai-whisper filter accepts a candidate
whose penalized log-probability is below -1.0, and the batched filter
accepts a candidate whose stripped text is empty, while the spec
disjunction rejects both. -/
theorem c1_spec_disjunction_counterexample :
    specFilterRejects "hello" (-3/2) (1/10) (some (3/2)) = true
    ∧ forwardRejects ⟨"hello", -3/2, 1/10, 3/2⟩ = false
    ∧ specFilterRejects " " 0 0 none = true
    ∧ batchedRejects " " 0 0 = false := by
  refine ⟨?_, ?_, ?_, ?_⟩
  · simp only [specFilterRejects, Bool.or_eq_true, decide_eq_true_eq]
    left; left; left
    norm_num
  · norm_num [forwardRejects, penalizedLogprob, penaltyFold,
      suppress_low_forward, suppress_high_forward, strContains, containsSub,
      List.isPrefixOf]
    decide
  · simp only [specFilterRejects, Bool.or_eq_true, decide_eq_true_eq]
    right
    decide
  · simp only [batchedRejects]
    rw [penalizedLogprob_eq,
      show (suppress_low_batched.filter (fun s => strContains " " s)).length = 0
        from by decide,
      show (suppress_high_batched.filter (fun s => strContains " " s)).length = 0
        from by decide]
    norm_num

/-- C1 (amended): each branch applies only part of the spec disjunction:
the batched filter drops a candidate exactly when its penalized
log-probability is below -1.0 or no_speech_prob exceeds 0.7 (no
compression-ratio or empty-text clause), and the openai-whisper filter
drops a candidate exactly when the penalized log-probability is below
-0.5 with compression_ratio outside [1, 2], or no_speech_prob exceeds
0.7, or the stripped text is empty (no -1.0 clause). -/
theorem c1_filter_branch_characterization (g : GenResult) (lp : ℤ)
    (r : WhisperSegment) :
    (generate_segment_batched lp [g] = []
      ↔ (penalizedLogprob suppress_low_batched suppress_high_batched g.text
            (avgLogprob lp g) < -1
          ∨ g.no_speech_prob > 7/10))
    ∧ (forwardOutputs [r] = []
      ↔ ((penalizedLogprob suppress_low_forward suppress_high_forward r.text
              r.avg_logprob < -(1/2)
            ∧ (r.compression_ratio < 1 ∨ r.compression_ratio > 2))
          ∨ r.no_speech_prob > 7/10 ∨ pyStrip r.text = "")) := by
  constructor
  · have hb : generate_segment_batched lp [g] = []
        ↔ batchedRejects g.text (avgLogprob lp g) g.no_speech_prob = true := by
      by_cases hc : batchedRejects g.text (avgLogprob lp g) g.no_speech_prob = true
      · simp [generate_segment_batched, hc]
      · simp [generate_segment_batched, hc]
    rw [hb]
    simp only [batchedRejects, Bool.or_eq_true, decide_eq_true_eq]
  · have hf : forwardOutputs [r] = [] ↔ forwardRejects r = true := by
      by_cases hc : forwardRejects r = true
      · simp [forwardOutputs, hc]
      · simp [forwardOutputs, hc]
    rw [hf]
    simp only [forwardRejects, Bool.or_eq_true, Bool.and_eq_true,
      decide_eq_true_eq]
    tauto

/-- Counterexample for C7: with numeral suppression on, a `transcribe`
call abandoned before completion leaves the augmented suppress_tokens in
place, because the restore sits after the yield loop with no try/finally. -/
theorem c7_interrupted_override_counterexample :
    (optionsAfter true [5] ⟨5, 1, 1, true, [-1], true⟩ false).suppress_tokens
      ≠ [-1] := by
  decide

/-- C7 (amended): the suppress_tokens override is restored exactly when
the `transcribe` generator runs to completion, and every other options
field is unchanged throughout, completed or not; an interrupted call can
leave the override applied. -/
theorem c7_options_restore_semantics (sn : Bool) (numerals : List ℤ)
    (opts : PipelineOptions) (completed : Bool) :
    optionsAfter sn numerals opts true = opts
    ∧ (optionsAfter sn numerals opts completed).beam_size = opts.beam_size
    ∧ (optionsAfter sn numerals opts completed).patience = opts.patience
    ∧ (optionsAfter sn numerals opts completed).length_penalty
        = opts.length_penalty
    ∧ (optionsAfter sn numerals opts completed).suppress_blank
        = opts.suppress_blank
    ∧ (optionsAfter sn numerals opts completed).without_timestamps
        = opts.without_timestamps := by
  refine ⟨by cases sn <;> rfl, ?_, ?_, ?_, ?_, ?_⟩ <;>
    cases sn <;> cases completed <;> rfl

/-- Counterexample for C8: the source truncates sample indices with
`int()` while the claim says `round`: for a segment ending at 1.9 samples
the code slice holds one sample where the claimed rounding yields two. -/
theorem c8_truncation_vs_round_counterexample :
    dataSlices [0, 1, 2] [⟨0, 19/160000⟩] = [[0]]
    ∧ specSlices [0, 1, 2] [⟨0, 19/160000⟩] = [[0, 1]] := by
  constructor
  · norm_num [dataSlices, pySlice, frameStart, frameStop, intTrunc, SAMPLE_RATE]
  · norm_num [specSlices, pySlice, specFrameStart, specFrameStop, SAMPLE_RATE,
      round_eq]
    decide

/-- C8 (amended): the segment source yields exactly one slice per VAD
segment, in order; slice i is the Python slice
`audio[int(start_i*SR):int(end_i*SR)]` — truncation, not rounding — whose
length is `min (int(end_i*SR)) |audio| - int(start_i*SR)` (an end index
past the waveform clips to the bound instead of failing) and whose sample
j is waveform sample `int(start_i*SR) + j`. -/
theorem c8_segment_source (audio : List ℚ) (segs : List AudioSegment) (i : ℕ)
    (h : i < segs.length) :
    (dataSlices audio segs).length = segs.length
    ∧ (dataSlices audio segs).getD i []
        = pySlice audio (frameStart (segs.getD i default))
            (frameStop (segs.getD i default))
    ∧ ((dataSlices audio segs).getD i []).length
        = min (frameStop (segs.getD i default)) audio.length
            - frameStart (segs.getD i default)
    ∧ ∀ j : ℕ, j < ((dataSlices audio segs).getD i []).length →
        ((dataSlices audio segs).getD i []).getD j 0
          = audio.getD (frameStart (segs.getD i default) + j) 0 := by
  have hlen : (dataSlices audio segs).length = segs.length := by
    simp [dataSlices]
  have hi : i < (dataSlices audio segs).length := by rw [hlen]; exact h
  have hget : (dataSlices audio segs).getD i []
      = pySlice audio (frameStart (segs.getD i default))
          (frameStop (segs.getD i default)) := by
    rw [List.getD_eq_getElem _ _ hi, List.getD_eq_getElem _ _ h]
    simp [dataSlices]
  refine ⟨hlen, hget, ?_, ?_⟩
  · rw [hget]
    simp [pySlice, Nat.sub_min_sub_right]
  · intro j hj
    rw [hget] at hj ⊢
    simp only [pySlice] at hj ⊢
    rw [List.getD_eq_getElem _ _ hj]
    have hb2 : frameStart (segs.getD i default) + j
        < (audio.take (frameStop (segs.getD i default))).length := by
      rw [List.length_drop] at hj
      omega
    have hb3 : frameStart (segs.getD i default) + j < audio.length := by
      rw [List.length_take] at hb2
      omega
    rw [List.getD_eq_getElem _ _ hb3]
    rw [List.getElem_drop, List.getElem_take]

/-- Witness for C8 (amended) at a one-segment input. -/
theorem c8_segment_source_witness :
    (dataSlices [0, 1, 2] [⟨0, 19/160000⟩]).length
      = ([⟨0, 19/160000⟩] : List AudioSegment).length :=
  (c8_segment_source [0, 1, 2] [⟨0, 19/160000⟩] 0 (by decide)).1

/-- Counterexample for C2: in the faster-whisper branch a rejected
candidate is dropped from the stream, not kept as an empty-text slot:
a two-candidate batch whose first candidate fails filtering returns one
text, and `transcribe` then emits one segment for two VAD segments, with
the surviving text attached to the first segment's times. -/
theorem c2_rejected_candidate_dropped_counterexample :
    generate_segment_batched 1
        [⟨"bad", -4, 1, 0⟩, ⟨"good", 0, 1, 0⟩] = ["good"]
    ∧ transcribeFW (some 2) 1 [0, 1] [⟨0, 1/16000⟩, ⟨1/16000, 2/16000⟩]
        (fun sl => if sl = [0] then ⟨"bad", -4, 1, 0⟩ else ⟨"good", 0, 1, 0⟩)
      = [⟨"good", 0, 0⟩]
    ∧ ([⟨0, 1/16000⟩, ⟨1/16000, 2/16000⟩] : List AudioSegment).length = 2 := by
  have hbad : batchedRejects "bad" (avgLogprob 1 ⟨"bad", -4, 1, 0⟩) 0 = true := by
    rw [show avgLogprob 1 (⟨"bad", -4, 1, 0⟩ : GenResult) = -2 from by
      norm_num [avgLogprob]]
    simp only [batchedRejects, Bool.or_eq_true, decide_eq_true_eq]
    left
    rw [penalizedLogprob_eq,
      show (suppress_low_batched.filter (fun s => strContains "bad" s)).length = 0
        from by decide,
      show (suppress_high_batched.filter (fun s => strContains "bad" s)).length = 0
        from by decide]
    norm_num
  have hgood : batchedRejects "good" (avgLogprob 1 ⟨"good", 0, 1, 0⟩) 0 = false := by
    rw [show avgLogprob 1 (⟨"good", 0, 1, 0⟩ : GenResult) = 0 from by
      norm_num [avgLogprob]]
    simp only [batchedRejects]
    rw [penalizedLogprob_eq,
      show (suppress_low_batched.filter (fun s => strContains "good" s)).length = 0
        from by decide,
      show (suppress_high_batched.filter (fun s => strContains "good" s)).length = 0
        from by decide]
    norm_num
  have h1 : generate_segment_batched 1
      [⟨"bad", -4, 1, 0⟩, ⟨"good", 0, 1, 0⟩] = ["good"] := by
    simp only [generate_segment_batched, List.foldl_cons, List.foldl_nil, hbad,
      hgood, if_true, Bool.false_eq_true, if_false, List.nil_append]
  refine ⟨h1, ?_, rfl⟩
  rw [transcribeFW, pipelineTextsFW_eq]
  rw [show dataSlices [0, 1] [⟨0, 1/16000⟩, ⟨1/16000, 2/16000⟩] = [[0], [1]] from by
    norm_num [dataSlices, pySlice, frameStart, frameStop, intTrunc, SAMPLE_RATE]
    decide]
  rw [show List.map
      (fun sl => if sl = [(0 : ℚ)] then (⟨"bad", -4, 1, 0⟩ : GenResult)
                 else ⟨"good", 0, 1, 0⟩) [[0], [1]]
      = [⟨"bad", -4, 1, 0⟩, ⟨"good", 0, 1, 0⟩] from by norm_num]
  rw [h1]
  simp only [assembleSegments, List.enum, List.enumFrom, List.map_cons,
    List.map_nil, List.getD_cons_zero]
  norm_num [round3, round_eq]

/-- C2 (amended): in the openai-whisper branch (the model branch
`load_model` constructs) the claim holds for every batch size: exactly N
output segments, in input order, segment i carrying the rounded times of
VAD segment i and the filtered text of its slice (an all-rejected
candidate list leaves an empty-text slot); in the faster-whisper branch a
rejected candidate is instead dropped from the stream (see the
counterexample). -/
theorem c2_whisper_branch_slot_preservation (b : Option ℕ) (audio : List ℚ)
    (vad : List AudioSegment) (f : List ℚ → List WhisperSegment) (i : ℕ)
    (h : i < vad.length) :
    (transcribeW b audio vad f).length = vad.length
    ∧ (transcribeW b audio vad f).getD i default
      = ⟨forward_one (f (pySlice audio (frameStart (vad.getD i default))
            (frameStop (vad.getD i default)))),
         round3 ((vad.getD i default).start),
         round3 ((vad.getD i default).stop)⟩ := by
  have htexts : pipelineOutputsW b f (dataSlices audio vad)
      = (dataSlices audio vad).map (fun sl => forward_one (f sl)) :=
    pipelineOutputsW_eq b f (dataSlices audio vad)
  have hlen : (pipelineOutputsW b f (dataSlices audio vad)).length = vad.length := by
    rw [htexts]
    simp [dataSlices]
  constructor
  · rw [transcribeW, assembleSegments_length, hlen]
  · have hb : i < (pipelineOutputsW b f (dataSlices audio vad)).length := by
      rw [hlen]; exact h
    have htext : (pipelineOutputsW b f (dataSlices audio vad)).getD i default
        = forward_one (f (pySlice audio (frameStart (vad.getD i default))
            (frameStop (vad.getD i default)))) := by
      have hi2 : i < ((dataSlices audio vad).map
          (fun sl => forward_one (f sl))).length := by
        simp [dataSlices, h]
      rw [htexts, List.getD_eq_getElem _ _ hi2, List.getElem_map]
      have hi3 : i < (dataSlices audio vad).length := by simp [dataSlices, h]
      congr 1
      have : (dataSlices audio vad).getD i []
          = pySlice audio (frameStart (vad.getD i default))
              (frameStop (vad.getD i default)) := by
        rw [List.getD_eq_getElem _ _ hi3, List.getD_eq_getElem _ _ h]
        simp [dataSlices]
      rw [← this, List.getD_eq_getElem _ _ hi3]
    rw [transcribeW, assembleSegments_get _ _ i hb, htext]

/-- Witness for C2 (amended): a two-segment input with an external model
returning no candidates still yields two output segments. -/
theorem c2_whisper_branch_slot_preservation_witness :
    (transcribeW (some 2) [0, 1] [⟨0, 1/16000⟩, ⟨1/16000, 2/16000⟩]
        (fun _ => [])).length
      = ([⟨0, 1/16000⟩, ⟨1/16000, 2/16000⟩] : List AudioSegment).length :=
  (c2_whisper_branch_slot_preservation (some 2) [0, 1]
    [⟨0, 1/16000⟩, ⟨1/16000, 2/16000⟩] (fun _ => []) 0 (by decide)).1

end WhisperY
